import Mathlib

/-!
A shallow embedding of the move-evaluation core of the chess-analyzer
repository (`src/chess_analyzer/evaluator.py`, with the label-penalty table
of `src/chess_analyzer/models.py`), together with theorems settling the
specification claims about it.

Modelling conventions:
* Machine integers are `Int` (Python integers are unbounded, so no wrap).
* The external collaborators (the python-chess board library and the
  Stockfish engine wrapper) are abstracted into an `Env` record of oracle
  functions; the evaluator code itself is translated line by line.
* Python dynamic typing matters in one place: `evaluate_move` passes its
  arguments to `_detect_brilliant` positionally in an order that does not
  match the parameter list of `_detect_brilliant`, so booleans flow into an
  int parameter and vice versa.  A tiny dynamic value type `PyVal` with
  Python truthiness and Python `and` / `or` semantics captures this exactly.
* `chess.Move` has fields `from_square`, `to_square`, `promotion`, `drop`
  and no `piece_type` attribute, so the access `move.piece_type` inside
  `_detect_book_move` raises `AttributeError`; fallible paths return
  `Except String`.
* Mutation is modelled by explicit state passing: `evaluate_move` returns,
  next to the assessment, the state of the board object the caller passed
  in, tracing every `copy` / `push` of the source.
-/

namespace ChessAnalyzer

/-- Piece kinds of the python-chess library, as used by
`_calculate_material_value`. -/
inductive PieceType
  | pawn
  | knight
  | bishop
  | rook
  | queen
  | king
deriving DecidableEq

/-- A piece on a square: kind plus colour (`true` = White), mirroring
`chess.Piece` as read through `board.piece_at`. -/
structure Piece where
  pieceType : PieceType
  color : Bool
deriving DecidableEq

/-- A move object, mirroring the fields of `chess.Move`
(`from_square`, `to_square`, `promotion`, `drop`).  `chess.Move` has no
`piece_type` attribute; `_detect_book_move` nevertheless reads one, which
raises `AttributeError` (modelled as an `Except.error`). -/
structure Move where
  fromSquare : Nat
  toSquare : Nat
  promotion : Option PieceType
  drop : Option PieceType
deriving DecidableEq

/-- The python-chess board state the evaluator touches: an opaque position
identity (piece placement, side to move, castling rights — owned by the
library) plus the move stack that `push` appends to. -/
structure Board where
  posId : Nat
  moveStack : List Move
deriving DecidableEq

/-- Oracle functions for the external collaborators: the python-chess
library (position transition, SAN printing, legal-move generation, piece
lookup, FEN printing, side to move) and the `ChessEngine` wrapper
(`get_evaluation`, `get_top_moves`).  The evaluator only consumes these
interfaces; the spec places their implementations out of scope. -/
structure Env where
  applyMove : Nat → Move → Nat
  sanOf : Nat → Move → String
  uciOf : Move → String
  turn : Nat → Bool
  legalMoves : Nat → List Move
  pieceAt : Nat → Nat → Option Piece
  fen : Nat → String
  getEvaluation : Board → Nat → Int
  getTopMoves : Board → Nat → Nat → List (String × Int × String)

/-- Model of `board.push(move)`: the library advances the position and the move is
appended to `move_stack`. -/
def Board.pushMove (env : Env) (b : Board) (m : Move) : Board :=
  { posId := env.applyMove b.posId m, moveStack := b.moveStack ++ [m] }

/-- A dynamically typed Python value, needed because `evaluate_move` calls
`_detect_brilliant` with positionally scrambled arguments, mixing `bool`
and `int` across parameters. -/
inductive PyVal
  | int (n : Int)
  | bool (b : Bool)
deriving DecidableEq

/-- Python truthiness: `bool(x)` for ints and bools. -/
def PyVal.truthy : PyVal → Bool
  | .int n => n != 0
  | .bool b => b

/-- Numeric coercion used by comparisons: Python `bool` is an `int`
subtype with `True = 1`, `False = 0`. -/
def PyVal.toInt : PyVal → Int
  | .int n => n
  | .bool b => if b then 1 else 0

/-- Python `a or b`: returns `a` when `a` is truthy, else `b`. -/
def pyOr (a b : PyVal) : PyVal := if a.truthy then a else b

/-- Python `a and b`: returns `b` when `a` is truthy, else `a`. -/
def pyAnd (a b : PyVal) : PyVal := if a.truthy then b else a

/-- Python `a <= n` on a possibly boolean left operand. -/
def pyLe (a : PyVal) (n : Int) : Bool := a.toInt ≤ n

/-- The move-quality labels of `MoveLabel` in `models.py`. -/
inductive MoveLabel
  | brilliant
  | great_move
  | best_move
  | excellent
  | good
  | book
  | inaccuracy
  | miss
  | mistake
  | blunder
deriving DecidableEq

/-- The assessment record produced per move (`MoveAssessment` in
`models.py`).  The `brilliant` field holds whatever `_detect_brilliant`
returned; through the scrambled call this can be a Python `int`, hence
`PyVal`. -/
structure MoveAssessment where
  move : String
  move_number : Nat
  is_white : Bool
  san : String
  uci : String
  cp_gain : Int
  loss_vs_best : Int
  best_move : String
  label : MoveLabel
  brilliant : PyVal
  is_only_move : Bool
  is_sacrifice : Bool
  is_surprise : Bool
  eval_before : Int
  eval_after : Int
  material_change : Int
  shallow_depth : Nat
  deep_depth : Nat
  multipv_count : Nat
deriving DecidableEq

/-- Constant `self.only_move_eval_threshold` from the evaluator constructor. -/
def only_move_eval_threshold : Int := -200

/-- Constant `self.brilliant_eval_threshold` from the evaluator constructor. -/
def brilliant_eval_threshold : Int := 600

/-- Source `MoveEvaluator.get_move_label` (evaluator.py lines 132-165): brilliant
first, then book, then the centipawn-loss ladder 0 / 10 / 25 / 50 / 100 /
200.  The Python body tests the brilliant flag with `if is_brilliant:`,
i.e. by truthiness, so the caller passes `PyVal.truthy` of the stored
value. -/
def get_move_label (loss_vs_best : Int) (is_brilliant : Bool) (is_book : Bool) : MoveLabel :=
  if is_brilliant then .brilliant
  else if is_book then .book
  else if loss_vs_best = 0 then .best_move
  else if loss_vs_best ≤ 10 then .great_move
  else if loss_vs_best ≤ 25 then .excellent
  else if loss_vs_best ≤ 50 then .good
  else if loss_vs_best ≤ 100 then .inaccuracy
  else if loss_vs_best ≤ 200 then .mistake
  else .blunder

/-- Source `MoveEvaluator._detect_only_move` (lines 167-185): only examined when
`eval_before` is at or below the danger threshold; one legal move, or
exactly one legal move whose quick (depth 5) evaluation stays above the
threshold. -/
def detect_only_move (env : Env) (board : Board) (eval_before : Int) : Bool :=
  if eval_before ≤ only_move_eval_threshold then
    let legal_moves := env.legalMoves board.posId
    if legal_moves.length = 1 then true
    else
      let moves_above_threshold := legal_moves.countP (fun m =>
        let board_copy := Board.pushMove env board m
        let eval_after := env.getEvaluation board_copy 5
        only_move_eval_threshold < eval_after)
      moves_above_threshold = 1
  else false

/-- Source `MoveEvaluator._calculate_material_value` (lines 294-315): sum the
piece values (pawn 1, knight 3, bishop 3, rook 5, queen 9, king 0) over
all 64 squares, White positive.  The result is in pawn units. -/
def pieceValue : PieceType → Int
  | .pawn => 1
  | .knight => 3
  | .bishop => 3
  | .rook => 5
  | .queen => 9
  | .king => 0

/-- Material value of a position in pawn units (lines 294-315). -/
def calculate_material_value (env : Env) (board : Board) : Int :=
  (List.range 64).foldl (fun total square =>
    match env.pieceAt board.posId square with
    | some piece =>
      if piece.color then total + pieceValue piece.pieceType
      else total - pieceValue piece.pieceType
    | none => total) 0

/-- Source `MoveEvaluator._calculate_material_change` (lines 284-292): material
after the move minus material before, computed on a pushed copy. -/
def calculate_material_change (env : Env) (board : Board) (move : Move) : Int :=
  let material_before := calculate_material_value env board
  let board_after := Board.pushMove env board move
  let material_after := calculate_material_value env board_after
  material_after - material_before

/-- Source `MoveEvaluator._detect_sacrifice` (lines 187-213).  Called by
`evaluate_move` with the board *before* the move, so `board.peek()` is the
previously played move, not the move under evaluation; with an empty move
stack it returns false.  The material test compares the pawn-unit change
against the literal -300 (the constructor constant
`sacrifice_material_threshold` is unused here), and the evaluation test
uses the literal -200. -/
def detect_sacrifice (env : Env) (board : Board) (eval_before eval_after : Int) : Bool :=
  match board.moveStack.getLast? with
  | none => false
  | some lastMove =>
    let material_change := calculate_material_change env board lastMove
    if material_change < -300 then
      let eval_change := eval_after - eval_before
      if eval_change > -200 then true else false
    else false

/-- Source `MoveEvaluator._detect_surprise` (lines 254-268): false when either
alternatives list is empty; false when the played SAN appears in the
shallow list; otherwise true exactly when the first deep entry is the
played SAN. -/
def detect_surprise (shallow_moves deep_moves : List (String × Int × String))
    (played_move : String) : Bool :=
  if shallow_moves.isEmpty || deep_moves.isEmpty then false
  else
    let shallow_move_sans := shallow_moves.map (fun t => t.1)
    if played_move ∈ shallow_move_sans then false
    else decide ((deep_moves.head?.map (fun t => t.1)) = some played_move)

/-- Source `MoveEvaluator._detect_brilliant` (lines 270-282), on dynamic values
because the call site feeds it scrambled positional arguments.  Body:
`near_best and not_already_winning and has_brilliant_characteristic` with
Python `and` / `or` semantics. -/
def detect_brilliant (loss_vs_best eval_before is_only_move is_sacrifice is_surprise : PyVal) :
    PyVal :=
  let near_best := PyVal.bool (pyLe loss_vs_best brilliant_eval_threshold)
  let not_already_winning := PyVal.bool (pyLe eval_before brilliant_eval_threshold)
  let has_brilliant_characteristic := pyOr is_only_move (pyOr is_sacrifice is_surprise)
  pyAnd near_best (pyAnd not_already_winning has_brilliant_characteristic)

/-- The five FEN placements hard-coded as `common_openings`
(lines 233-239). -/
def common_openings : List String :=
  ["rnbqkbnr/pppppppp/8/8/8/8/PPPPPPPP/RNBQKBNR",
   "rnbqkbnr/pppppppp/8/8/4P3/8/PPPP1PPP/RNBQKBNR",
   "rnbqkbnr/pppppppp/8/8/8/4P3/PPPP1PPP/RNBQKBNR",
   "rnbqkbnr/pppppppp/8/8/3P4/8/PPP1PPPP/RNBQKBNR",
   "rnbqkbnr/pppppppp/8/8/8/3P4/PPP1PPPP/RNBQKBNR"]

/-- Source `MoveEvaluator._detect_book_move` (lines 215-252): inside the first 15
plies, a position whose FEN placement matches `common_openings` is book;
otherwise, inside the first 10 plies the code reads `move.piece_type`,
an attribute `chess.Move` does not have, raising `AttributeError`. -/
def detect_book_move (env : Env) (board : Board) (_move : Move) : Except String Bool :=
  if board.moveStack.length < 15 then
    let fen := ((env.fen board.posId).splitOn " ").headD ""
    if fen ∈ common_openings then .ok true
    else if board.moveStack.length < 10 then
      .error "AttributeError: Move object has no attribute piece_type"
    else .ok false
  else .ok false

/-- The scan loop of `evaluate_move` (lines 74-85): walk the shallow
alternatives; at the first entry whose SAN is the played SAN record its
index, and when the index is positive set the loss to
`shallow_moves[0][1] - eval_cp`; stop there.  No hit leaves
`(None, 0)`. -/
def find_played_go (best_eval : Int) (move_san : String) :
    List (String × Int × String) → Nat → Option Nat × Int
  | [], _ => (none, 0)
  | t :: rest, i =>
    if t.1 = move_san then
      (some i, if 0 < i then best_eval - t.2.1 else 0)
    else find_played_go best_eval move_san rest (i + 1)

/-- Entry point of the scan loop: `best_eval` is `shallow_moves[0][1]`,
only ever read when the hit index is positive (the list is nonempty
then, so the `headD` default is never used). -/
def find_played_move (shallow_moves : List (String × Int × String))
    (move_san : String) : Option Nat × Int :=
  find_played_go ((shallow_moves.headD ("", 0, "")).2.1) move_san shallow_moves 0

/-- Source `MoveEvaluator.evaluate_move` (lines 31-130), in state-passing form:
the returned `Board` is the state of the object the caller passed in
(the source pushes only on copies).  The `_detect_brilliant` call passes
`(loss_vs_best, is_only_move, is_sacrifice, is_surprise, eval_before)`
positionally against the parameter order
`(loss_vs_best, eval_before, is_only_move, is_sacrifice, is_surprise)`,
exactly as the source does. -/
def evaluate_move (env : Env) (board : Board) (move : Move)
    (shallow_depth deep_depth multipv : Nat) :
    Except String (MoveAssessment × Board) :=
  let board_copy := board
  let move_san := env.sanOf board_copy.posId move
  let eval_before := env.getEvaluation board_copy shallow_depth
  let shallow_moves := env.getTopMoves board_copy shallow_depth multipv
  let board_copy := Board.pushMove env board_copy move
  let eval_after := env.getEvaluation board_copy shallow_depth
  let deep_moves := env.getTopMoves board_copy deep_depth multipv
  let cp_gain := eval_after - eval_before
  let fp := find_played_move shallow_moves move_san
  let loss_vs_best := if fp.1 = none then (500 : Int) else fp.2
  let is_only_move := detect_only_move env board eval_before
  let is_sacrifice := detect_sacrifice env board eval_before eval_after
  let is_surprise := detect_surprise shallow_moves deep_moves move_san
  let is_brilliant := detect_brilliant (.int loss_vs_best) (.bool is_only_move)
      (.bool is_sacrifice) (.bool is_surprise) (.int eval_before)
  match detect_book_move env board move with
  | .error e => .error e
  | .ok is_book =>
    let label := get_move_label loss_vs_best is_brilliant.truthy is_book
    .ok ({ move := move_san
           move_number := board_copy.moveStack.length
           is_white := env.turn board.posId
           san := move_san
           uci := env.uciOf move
           cp_gain := cp_gain
           loss_vs_best := loss_vs_best
           best_move := match shallow_moves.head? with
             | some t => t.1
             | none => move_san
           label := label
           brilliant := is_brilliant
           is_only_move := is_only_move
           is_sacrifice := is_sacrifice
           is_surprise := is_surprise
           eval_before := eval_before
           eval_after := eval_after
           material_change := calculate_material_change env board move
           shallow_depth := shallow_depth
           deep_depth := deep_depth
           multipv_count := multipv }, board)

/-- The loop body of `MoveEvaluator.evaluate_game` (lines 317-358): the
`board` local is the board object threaded through every iteration; the
source never pushes the mainline moves onto it, so each call sees the
board state `evaluate_move` left behind (which is the unchanged input).
`move_number` and `is_white` are overwritten after each call, as in the
source. -/
def evaluate_game_go (env : Env) (shallow_depth deep_depth multipv : Nat) :
    Board → List Move → Nat → Except String (List MoveAssessment)
  | _, [], _ => .ok []
  | board, m :: rest, move_number =>
    match evaluate_move env board m shallow_depth deep_depth multipv with
    | .error e => .error e
    | .ok (assessment, board_after) =>
      let assessment := { assessment with
        move_number := move_number
        is_white := env.turn board.posId }
      match evaluate_game_go env shallow_depth deep_depth multipv
          board_after rest (move_number + 1) with
      | .error e => .error e
      | .ok assessments => .ok (assessment :: assessments)

/-- Source `MoveEvaluator.evaluate_game` (lines 317-358): walk the mainline
moves starting from `game.board()` with `move_number` starting at 1.
The mainline is modelled as the list of moves carried by the mainline
nodes (each such node carries a move, so the `if node.move:` guard only
filters nothing here). -/
def evaluate_game (env : Env) (startBoard : Board) (moves : List Move)
    (shallow_depth deep_depth multipv : Nat) : Except String (List MoveAssessment) :=
  evaluate_game_go env shallow_depth deep_depth multipv startBoard moves 1

/-- Number of assessments whose brilliant flag is truthy; `models.py`
counts brilliance with `if move.brilliant:` (line 201), i.e. by Python
truthiness. -/
def brilliantCount (assessments : List MoveAssessment) : Nat :=
  assessments.countP (fun a => a.brilliant.truthy)

/-- The per-label accuracy penalties of `GameAnalysis._create_player_stats`
(`models.py` lines 166-197); lower penalty means a better quality
category. -/
def labelPenalty : MoveLabel → Nat
  | .brilliant => 0
  | .great_move => 0
  | .best_move => 0
  | .excellent => 2
  | .good => 5
  | .book => 0
  | .inaccuracy => 10
  | .miss => 15
  | .mistake => 20
  | .blunder => 40

/-- A classification rule: an applicability predicate over
`(loss_vs_best, is_brilliant, is_book)` plus the label it awards. -/
structure LabelRule where
  applies : Int → Bool → Bool → Bool
  label : MoveLabel

/-- First-matching-rule semantics over an ordered rule table, with
Blunder as the final otherwise rule. -/
def firstMatch : List LabelRule → Int → Bool → Bool → MoveLabel
  | [], _, _, _ => .blunder
  | r :: rs, loss, brill, book =>
    if r.applies loss brill book then r.label else firstMatch rs loss brill book

/-- The ordered taxonomy the code implements: Brilliant before Book, then
Best at zero loss, then the ladder 10 / 25 / 50 / 100 / 200, with no Miss
rule and no decided-position clause. -/
def code_taxonomy : List LabelRule :=
  [⟨fun _ brill _ => brill, .brilliant⟩,
   ⟨fun _ _ book => book, .book⟩,
   ⟨fun loss _ _ => loss = 0, .best_move⟩,
   ⟨fun loss _ _ => loss ≤ 10, .great_move⟩,
   ⟨fun loss _ _ => loss ≤ 25, .excellent⟩,
   ⟨fun loss _ _ => loss ≤ 50, .good⟩,
   ⟨fun loss _ _ => loss ≤ 100, .inaccuracy⟩,
   ⟨fun loss _ _ => loss ≤ 200, .mistake⟩]

/-! Concrete environments used to evaluate the embedding on explicit
inputs.  All oracle functions are total and constant enough for the
kernel to evaluate the evaluator end to end. -/

/-- A concrete move literal (squares e2 and e4). -/
def mv : Move := ⟨12, 28, none, none⟩

/-- A concrete board whose move stack already holds 15 plies, so
`detect_book_move` takes its ply-window-exceeded branch and
`detect_sacrifice` finds a previous move to peek at. -/
def startB : Board := ⟨0, List.replicate 15 mv⟩

/-- Environment A: every position evaluates to 50 centipawns and the
engine always ranks the played move first at 50. -/
def envA : Env :=
  { applyMove := fun p _ => p + 1
    sanOf := fun _ _ => "mv"
    uciOf := fun _ => "e2e4"
    turn := fun _ => true
    legalMoves := fun _ => []
    pieceAt := fun _ _ => none
    fen := fun _ => ""
    getEvaluation := fun _ _ => 50
    getTopMoves := fun _ _ _ => [("mv", 50, "e2e4")] }

/-- Environment B: the engine never lists the played move among the
alternatives and every position evaluates to 300 centipawns. -/
def envB : Env :=
  { envA with
    getEvaluation := fun _ _ => 300
    getTopMoves := fun _ _ _ => [("other", 10, "u")] }

/-- Environment C: the shallow list ranks a mate-sized alternative first
and the played move last at the opposite mate score. -/
def envC : Env :=
  { envA with
    getTopMoves := fun _ _ _ => [("best", 10000, "u"), ("mv", -10000, "v")] }

/-- Environment D: position 0 carries a single white rook and every
successor position is empty, so pushing any move loses 5 pawn units. -/
def envD : Env :=
  { envA with
    pieceAt := fun p sq => if p = 0 ∧ sq = 0 then some ⟨.rook, true⟩ else none }

/-- C5 counterexample: a move losing 5 pawn units (at least a minor
piece) with an evaluation drop of only 100 centipawns is, per the claim,
a sacrifice; the code returns false because it compares the pawn-unit
material change against the centipawn-scale literal -300 (and its
evaluation bound is -200, not -300). -/
theorem detect_sacrifice_rejects_claimed_case :
    calculate_material_change envD startB mv = -5 ∧
    (-5 : Int) ≤ -3 ∧
    ((-150 : Int) - (-50)) > -300 ∧
    detect_sacrifice envD startB (-50) (-150) = false := by
  refine ⟨by decide, by decide, by decide, by decide⟩

/-- C5 amended: the code detects a sacrifice exactly when the board has a
previous move to peek at, the pawn-unit material change of that peeked
move is below -300, and the evaluation change stays above -200. -/
theorem detect_sacrifice_iff (env : Env) (b : Board) (eval_before eval_after : Int) :
    detect_sacrifice env b eval_before eval_after = true ↔
      ∃ m, b.moveStack.getLast? = some m ∧
        calculate_material_change env b m < -300 ∧
        eval_after - eval_before > -200 := by
  unfold detect_sacrifice
  cases h : b.moveStack.getLast? with
  | none => simp
  | some lastMove =>
    simp only [Option.some.injEq]
    constructor
    · intro hTrue
      refine ⟨lastMove, rfl, ?_⟩
      by_cases hm : calculate_material_change env b lastMove < -300
      · by_cases he : eval_after - eval_before > -200
        · exact ⟨hm, he⟩
        · simp [hm, he] at hTrue
      · simp [hm] at hTrue
    · rintro ⟨m, hm, hmat, heval⟩
      cases hm
      simp [hmat, heval]

/-- C6: with the brilliant and book flags held fixed, a larger
centipawn loss never yields a label with a strictly smaller accuracy
penalty, i.e. never a strictly better quality category. -/
theorem get_move_label_penalty_monotone (brill book : Bool) (l1 l2 : Int)
    (h : l1 ≤ l2) :
    labelPenalty (get_move_label l1 brill book) ≤
      labelPenalty (get_move_label l2 brill book) := by
  cases brill <;> cases book <;>
    simp only [get_move_label, if_true, if_false, Bool.false_eq_true] <;>
    first
      | exact le_rfl
      | (split_ifs <;> simp [labelPenalty] <;> omega)

/-- C6 witness: instantiated at losses 3 and 50 with both flags false. -/
theorem get_move_label_penalty_monotone_witness :
    (3 : Int) ≤ 50 ∧
    labelPenalty (get_move_label 3 false false) ≤
      labelPenalty (get_move_label 50 false false) :=
  ⟨by decide, get_move_label_penalty_monotone false false 3 50 (by decide)⟩

/-- C7: surprise holds exactly when both alternative lists are nonempty,
the played SAN is absent from the shallow list, and the first deep entry
is the played SAN; an empty list on either side forces false. -/
theorem detect_surprise_iff (shallow_moves deep_moves : List (String × Int × String))
    (played_move : String) :
    detect_surprise shallow_moves deep_moves played_move = true ↔
      shallow_moves ≠ [] ∧ deep_moves ≠ [] ∧
      (∀ t ∈ shallow_moves, t.1 ≠ played_move) ∧
      deep_moves.head?.map (fun t => t.1) = some played_move := by
  unfold detect_surprise
  rcases shallow_moves with _ | ⟨sh, st⟩
  · simp
  rcases deep_moves with _ | ⟨dh, dt⟩
  · simp
  simp only [List.isEmpty_cons, Bool.or_self, Bool.or_false, Bool.false_or,
    if_false, ne_eq, List.cons_ne_nil, not_false_eq_true, true_and]
  by_cases hmem : played_move ∈ (sh :: st).map (fun t => t.1)
  · rw [if_pos hmem]
    obtain ⟨t, ht, ht1⟩ := List.mem_map.mp hmem
    constructor
    · intro h; simp at h
    · rintro ⟨hall, -⟩
      exact absurd ht1 (hall t ht)
  · rw [if_neg hmem]
    constructor
    · intro h
      refine ⟨?_, of_decide_eq_true h⟩
      intro t ht h1
      exact hmem (List.mem_map.mpr ⟨t, ht, h1⟩)
    · rintro ⟨-, hhead⟩
      exact decide_eq_true hhead

/-- C8: whenever the evaluation before the move is strictly above the
danger threshold (-200), only-move detection returns false regardless of
the legal-move count. -/
theorem detect_only_move_false_above_threshold (env : Env) (board : Board)
    (eval_before : Int) (h : only_move_eval_threshold < eval_before) :
    detect_only_move env board eval_before = false := by
  unfold detect_only_move
  rw [if_neg (not_le.mpr h)]

/-- C8 witness: instantiated at evaluation 0 in environment A. -/
theorem detect_only_move_false_above_threshold_witness :
    only_move_eval_threshold < (0 : Int) ∧
    detect_only_move envA startB 0 = false :=
  ⟨by decide, detect_only_move_false_above_threshold envA startB 0 (by decide)⟩

/-- Behaviour of the scrambled `_detect_brilliant` call made by
`evaluate_move`: the only-move flag lands in the `eval_before` parameter
(a boolean is never above 600, so that guard is vacuous) and the
pre-move evaluation lands in the characteristic disjunction, which is
truthy whenever the evaluation is nonzero. -/
theorem detect_brilliant_call_truthy (loss eb : Int) (only sac surp : Bool) :
    (detect_brilliant (.int loss) (.bool only) (.bool sac) (.bool surp) (.int eb)).truthy
      = (decide (loss ≤ 600) && (sac || surp || decide (eb ≠ 0))) := by
  cases only <;> cases sac <;> cases surp <;>
    by_cases hl : loss ≤ 600 <;> by_cases he : eb = 0 <;>
      simp [detect_brilliant, pyAnd, pyOr, pyLe, PyVal.truthy, PyVal.toInt,
        brilliant_eval_threshold, hl, he]

/-- C3 counterexample: with both flags set the code returns Brilliant,
not Book (it checks the brilliant flag before the book flag), and a loss
of 8 centipawns is labeled Great, not Excellent (the Great threshold is
10, not 5). -/
theorem get_move_label_brilliant_over_book :
    get_move_label 0 true true = .brilliant ∧ MoveLabel.brilliant ≠ MoveLabel.book ∧
    get_move_label 8 false false = .great_move ∧
    MoveLabel.great_move ≠ MoveLabel.excellent :=
  ⟨by decide, by decide, by decide, by decide⟩

/-- C3 amended: the classifier equals first-matching-rule evaluation of
the ordered table Brilliant, Book, Best (loss 0), Great (loss at most
10), Excellent (25), Good (50), Inaccuracy (100), Mistake (200),
otherwise Blunder; there is no Miss rule and no decided-position
clause. -/
theorem get_move_label_eq_firstMatch (loss : Int) (brill book : Bool) :
    get_move_label loss brill book = firstMatch code_taxonomy loss brill book := by
  cases brill <;> cases book <;>
    simp [get_move_label, firstMatch, code_taxonomy]

/-- C2 amended: the brilliant value stored by `evaluate_move` is truthy
exactly when the loss is at most 600 and the move is a sacrifice, a
surprise, or the pre-move evaluation is nonzero; the only-move flag and
the claimed tight windows play no role. -/
theorem evaluate_move_brilliant_truthy_iff (env : Env) (b : Board) (m : Move)
    (d1 d2 mp : Nat) (a : MoveAssessment) (b2 : Board)
    (h : evaluate_move env b m d1 d2 mp = .ok (a, b2)) :
    a.brilliant.truthy =
      (decide (a.loss_vs_best ≤ 600) &&
        (a.is_sacrifice || a.is_surprise || decide (a.eval_before ≠ 0))) := by
  simp only [evaluate_move] at h
  split at h
  · exact absurd h (by simp)
  · simp only [Except.ok.injEq, Prod.mk.injEq] at h
    obtain ⟨ha, -⟩ := h
    subst ha
    exact detect_brilliant_call_truthy _ _ _ _ _

/-- C2 witness: the characterization instantiated in environment A. -/
theorem evaluate_move_brilliant_truthy_iff_witness :
    Except.map (fun p => p.1.brilliant.truthy) (evaluate_move envA startB mv 10 20 3) =
      Except.map
        (fun p => decide (p.1.loss_vs_best ≤ 600) &&
          (p.1.is_sacrifice || p.1.is_surprise || decide (p.1.eval_before ≠ 0)))
        (evaluate_move envA startB mv 10 20 3) := by
  obtain ⟨p, hp⟩ : ∃ p, evaluate_move envA startB mv 10 20 3 = .ok p := ⟨_, rfl⟩
  rw [hp]
  simp only [Except.map]
  exact congrArg Except.ok
    (evaluate_move_brilliant_truthy_iff envA startB mv 10 20 3 p.1 p.2 (by rw [hp]))

/-- C2 counterexample: in environment B the stored brilliant value is
truthy although the move is neither a sacrifice nor a surprise, the
only-move flag is false, the loss is 500 (outside the claimed window of
20) and the pre-move evaluation is 300 (outside the claimed band). -/
theorem evaluate_move_brilliant_ignores_claimed_guards :
    Except.map
      (fun p => (p.1.brilliant.truthy, p.1.is_sacrifice, p.1.is_surprise,
        p.1.is_only_move, p.1.loss_vs_best, p.1.eval_before))
      (evaluate_move envB startB mv 10 20 3) =
      Except.ok (true, false, false, false, 500, 300) ∧
    ¬ ((500 : Int) ≤ 20) ∧ ¬ ((300 : Int) ≤ 150) :=
  ⟨rfl, by decide, by decide⟩

/-- Scan-loop lemma: a list whose entries all stay at or below the given
best evaluation yields a non-negative loss. -/
theorem find_played_go_nonneg (best : Int) (san : String) :
    ∀ (l : List (String × Int × String)) (i : Nat),
      (∀ t ∈ l, t.2.1 ≤ best) → 0 ≤ (find_played_go best san l i).2 := by
  intro l
  induction l with
  | nil => intro i _; simp [find_played_go]
  | cons t rest ih =>
    intro i h
    simp only [find_played_go]
    split_ifs with h1 h2
    · have := h t (by simp)
      dsimp only
      omega
    · dsimp only
      omega
    · exact ih (i + 1) (fun u hu => h u (by simp [hu]))

/-- The loss value `evaluate_move` computes is non-negative whenever the
shallow alternatives arrive sorted by descending evaluation. -/
theorem loss_formula_nonneg (s : List (String × Int × String)) (san : String)
    (hsort : List.Pairwise (fun x y : String × Int × String => y.2.1 ≤ x.2.1) s) :
    0 ≤ (if (find_played_move s san).1 = none then (500 : Int)
         else (find_played_move s san).2) := by
  split_ifs with hf
  · omega
  · rcases s with _ | ⟨t0, rest⟩
    · simp [find_played_move, find_played_go] at hf
    · apply find_played_go_nonneg
      intro t ht
      rcases List.mem_cons.mp ht with rfl | ht
      · simp
      · have := (List.pairwise_cons.mp hsort).1 t ht
        simpa using this

/-- C4 amended: the loss is computed from the pre-move shallow list (not
from after-move evaluations) and is unclamped; it is non-negative
whenever the engine returns the shallow list sorted by descending
evaluation. -/
theorem evaluate_move_loss_nonneg_of_sorted (env : Env) (b : Board) (m : Move)
    (d1 d2 mp : Nat) (a : MoveAssessment) (b2 : Board)
    (hsort : List.Pairwise (fun x y : String × Int × String => y.2.1 ≤ x.2.1)
      (env.getTopMoves b d1 mp))
    (h : evaluate_move env b m d1 d2 mp = .ok (a, b2)) :
    0 ≤ a.loss_vs_best := by
  simp only [evaluate_move] at h
  split at h
  · exact absurd h (by simp)
  · simp only [Except.ok.injEq, Prod.mk.injEq] at h
    obtain ⟨ha, -⟩ := h
    subst ha
    exact loss_formula_nonneg _ _ hsort

/-- C4 witness: the non-negativity statement instantiated in environment
A, whose singleton shallow list is trivially sorted. -/
theorem evaluate_move_loss_nonneg_of_sorted_witness :
    Except.map (fun p => decide (0 ≤ p.1.loss_vs_best)) (evaluate_move envA startB mv 10 20 3)
      = Except.ok true := by
  obtain ⟨p, hp⟩ : ∃ p, evaluate_move envA startB mv 10 20 3 = .ok p := ⟨_, rfl⟩
  have hsort : List.Pairwise (fun x y : String × Int × String => y.2.1 ≤ x.2.1)
      (envA.getTopMoves startB 10 3) := by
    simp [envA]
  have h0 := evaluate_move_loss_nonneg_of_sorted envA startB mv 10 20 3 p.1 p.2 hsort
    (by rw [hp])
  rw [hp]
  simp [Except.map, h0]

/-- C4 counterexample: with a mate-sized gap between the best entry and
the played entry, the loss is 20000, far above the claimed clamp ceiling
of 1000 (no clamp exists in the code). -/
theorem evaluate_move_loss_exceeds_claimed_clamp :
    Except.map (fun p => p.1.loss_vs_best) (evaluate_move envC startB mv 10 20 3) =
      Except.ok 20000 ∧ ¬ ((20000 : Int) ≤ 1000) :=
  ⟨rfl, by decide⟩

/-- Scan-loop lemma: when no entry carries the played SAN the loop ends
with no rank and a zero loss accumulator. -/
theorem find_played_go_not_found (best : Int) (san : String) :
    ∀ (l : List (String × Int × String)) (i : Nat),
      (∀ t ∈ l, t.1 ≠ san) → find_played_go best san l i = (none, 0) := by
  intro l
  induction l with
  | nil => intro i _; rfl
  | cons t rest ih =>
    intro i h
    simp only [find_played_go]
    rw [if_neg (h t (by simp))]
    exact ih (i + 1) (fun u hu => h u (by simp [hu]))

/-- C9: a played move absent from the shallow alternatives (in
particular when that list is empty) gets the fixed loss 500, and when
the brilliant value is not truthy and the book branch does not fire the
label is Blunder (500 exceeds the Mistake threshold 200). -/
theorem evaluate_move_unmatched_gives_500_and_blunder (env : Env) (b : Board) (m : Move)
    (d1 d2 mp : Nat) (a : MoveAssessment) (b2 : Board)
    (habs : ∀ t ∈ env.getTopMoves b d1 mp, t.1 ≠ env.sanOf b.posId m)
    (h : evaluate_move env b m d1 d2 mp = .ok (a, b2)) :
    a.loss_vs_best = 500 ∧
      (a.brilliant.truthy = false → a.label ≠ .book → a.label = .blunder) := by
  simp only [evaluate_move] at h
  split at h
  · exact absurd h (by simp)
  next is_book heq =>
    simp only [Except.ok.injEq, Prod.mk.injEq] at h
    obtain ⟨ha, -⟩ := h
    subst ha
    have hfp : find_played_move (env.getTopMoves b d1 mp) (env.sanOf b.posId m) = (none, 0) :=
      find_played_go_not_found _ _ _ 0 habs
    have hloss : (if (find_played_move (env.getTopMoves b d1 mp)
          (env.sanOf b.posId m)).1 = none then (500 : Int)
        else (find_played_move (env.getTopMoves b d1 mp) (env.sanOf b.posId m)).2) = 500 := by
      rw [hfp]
      rfl
    refine ⟨hloss, ?_⟩
    intro hbr hbook
    dsimp only at hbr hbook ⊢
    rw [hloss] at hbr hbook ⊢
    rw [hbr] at hbook ⊢
    cases is_book
    · decide
    · exact absurd rfl hbook

/-- C9 witness: instantiated in environment B, where the engine never
lists the played move. -/
theorem evaluate_move_unmatched_gives_500_and_blunder_witness :
    Except.map (fun p => p.1.loss_vs_best) (evaluate_move envB startB mv 10 20 3) =
      Except.ok 500 := by
  obtain ⟨p, hp⟩ : ∃ p, evaluate_move envB startB mv 10 20 3 = .ok p := ⟨_, rfl⟩
  have habs : ∀ t ∈ envB.getTopMoves startB 10 3, t.1 ≠ envB.sanOf startB.posId mv := by
    decide
  have h0 := evaluate_move_unmatched_gives_500_and_blunder envB startB mv 10 20 3 p.1 p.2
    habs (by rw [hp])
  rw [hp]
  simp [Except.map, h0.1]

/-- C10: the board object the caller passes to `evaluate_move` is left
exactly as it was; every push happens on copies. -/
theorem evaluate_move_preserves_caller_board (env : Env) (b : Board) (m : Move)
    (d1 d2 mp : Nat) (a : MoveAssessment) (b2 : Board)
    (h : evaluate_move env b m d1 d2 mp = .ok (a, b2)) : b2 = b := by
  simp only [evaluate_move] at h
  split at h
  · exact absurd h (by simp)
  · simp only [Except.ok.injEq, Prod.mk.injEq] at h
    exact h.2.symm

/-- C10 witness: frame preservation instantiated in environment A. -/
theorem evaluate_move_preserves_caller_board_witness :
    Except.map (fun p => p.2) (evaluate_move envA startB mv 10 20 3) = Except.ok startB := by
  obtain ⟨p, hp⟩ : ∃ p, evaluate_move envA startB mv 10 20 3 = .ok p := ⟨_, rfl⟩
  have hb := evaluate_move_preserves_caller_board envA startB mv 10 20 3 p.1 p.2 (by rw [hp])
  rw [hp]
  simp [Except.map, hb]

/-- C1 counterexample: a three-move game in environment A yields three
truthy brilliant flags; no per-game cap of 2 is applied and no counter
is ever reset or incremented inside `evaluate_game`. -/
theorem evaluate_game_three_brilliants :
    Except.map brilliantCount (evaluate_game envA startB [mv, mv, mv] 10 20 3) =
      Except.ok 3 ∧ ¬ (3 ≤ 2) :=
  ⟨rfl, by decide⟩

/-- Loop lemma for the amended C1: the orchestration loop carries no
brilliant state, so the count of truthy brilliant flags is bounded only
by the number of processed moves. -/
theorem evaluate_game_go_count (env : Env) (d1 d2 mp : Nat) :
    ∀ (moves : List Move) (b : Board) (n : Nat) (as : List MoveAssessment),
      evaluate_game_go env d1 d2 mp b moves n = .ok as →
      brilliantCount as ≤ moves.length := by
  intro moves
  induction moves with
  | nil =>
    intro b n as h
    simp only [evaluate_game_go, Except.ok.injEq] at h
    subst h
    simp [brilliantCount]
  | cons m rest ih =>
    intro b n as h
    simp only [evaluate_game_go] at h
    split at h
    · exact absurd h (by simp)
    next p heq =>
      split at h
      · exact absurd h (by simp)
      next as2 heq2 =>
        simp only [Except.ok.injEq] at h
        subst h
        have hrec := ih _ _ _ heq2
        simp only [brilliantCount, List.countP_cons, List.length_cons] at hrec ⊢
        split_ifs <;> omega

/-- C1 amended: `evaluate_game` keeps no per-game brilliant counter and
applies no cap; each brilliant flag is decided move-locally, so the only
bound on the number of brilliant assessments is the number of moves. -/
theorem evaluate_game_brilliant_count_le_moves (env : Env) (b : Board) (moves : List Move)
    (d1 d2 mp : Nat) (as : List MoveAssessment)
    (h : evaluate_game env b moves d1 d2 mp = .ok as) :
    brilliantCount as ≤ moves.length :=
  evaluate_game_go_count env d1 d2 mp moves b 1 as h

/-- C1 witness: the amended bound instantiated on a one-move game in
environment A. -/
theorem evaluate_game_brilliant_count_le_moves_witness :
    brilliantCount ((evaluate_game envA startB [mv] 10 20 3).toOption.getD []) ≤ 1 := by
  have h : evaluate_game envA startB [mv] 10 20 3 =
      .ok ((evaluate_game envA startB [mv] 10 20 3).toOption.getD []) := rfl
  exact evaluate_game_brilliant_count_le_moves envA startB [mv] 10 20 3 _ h

end ChessAnalyzer
